import Mathlib

/- Verification of the eClipLint native launcher
   (src/pyoxidizer/src/main.rs): the embedded-interpreter bootstrap and the
   exit-status bridge. The only code under src/ is the Rust entry point,
   which constructs the embedded Python interpreter and feeds it a fixed
   bootstrap script. The interpreter host itself (pyembed) is outside src/,
   so its run semantics are modelled from the spec where noted. -/

/-- The target module name hardcoded in the bootstrap unit of main.rs. -/
def targetModule : String := "clipfix.main"

/-- The entry-point function name hardcoded in the bootstrap unit of main.rs. -/
def entryName : String := "main"

/-- The literal bootstrap script passed to py.run in main
(src/pyoxidizer/src/main.rs, the raw string spanning lines 6 to 10). -/
def bootstrapUnit : String := "\nimport sys\nfrom clipfix.main import main\nsys.exit(main())\n"

/-- A value of the embedded language as far as the exit bridge observes it:
absent (None), an integer, or any other object carrying a textual form. -/
inductive PyValue where
  | none
  | int (n : Int)
  | obj (text : String)
  deriving DecidableEq

/-- Outcome of invoking the entry point main of the module clipfix.main with
no arguments: a returned value, or an unhandled failure with a message. -/
inductive EPOutcome where
  | ret (v : PyValue)
  | raise (msg : String)
  deriving DecidableEq

/-- The Bootstrap Result: the outcome of running the bootstrap unit inside
the Interpreter Session — an explicit integer status, no explicit status, a
termination call with a non-integer payload, or an unhandled failure. -/
inductive BootstrapResult where
  | status (n : Int)
  | noStatus
  | objExit (text : String)
  | failure (msg : String)
  deriving DecidableEq

/-- Modelled from the spec: the termination primitive of the embedded
interpreter (sys.exit), which the bootstrap unit feeds the return value of
the entry point into; sys.exit belongs to the embedded runtime, which is not
under src/. Absent gives no explicit status, an integer gives that status,
and any other value is carried through unchanged as a non-integer payload. -/
def sysExit (v : PyValue) : BootstrapResult :=
  match v with
  | .none => .noStatus
  | .int n => .status n
  | .obj t => .objExit t

/-- Semantics of the bootstrap unit of main.rs: invoke the entry point with
no arguments; an unhandled failure propagates out, otherwise the returned
value is passed unchanged into the termination primitive. -/
def runBootstrap (ep : EPOutcome) : BootstrapResult :=
  match ep with
  | .raise msg => .failure msg
  | .ret v => sysExit v

/-- Outcome of constructing the embedded interpreter
(pyembed MainPythonInterpreter construction): success, or a startup error. -/
inductive InitOutcome where
  | ok
  | fail (msg : String)
  deriving DecidableEq

/-- Modelled from the spec: the linear lifecycle state machine of the
Interpreter Host (Uninitialized, Initializing, Running, Finalizing,
Terminated). -/
inductive HostState where
  | uninit
  | initializing
  | running
  | finalizing
  | terminated
  deriving DecidableEq

/-- Modelled from the spec: the sequence of lifecycle states traversed by one
process run; on startup failure the machine moves from Initializing directly
to Terminated, skipping Running and Finalizing. -/
def hostTrace (init : InitOutcome) : List HostState :=
  match init with
  | .fail _ => [ .uninit, .initializing, .terminated ]
  | .ok => [ .uninit, .initializing, .running, .finalizing, .terminated ]

/-- Observable outcome of one host process run: the exit status, the lines
written to standard error, how many times the entry point was invoked,
whether the bootstrap unit ran, how many construction calls were made, how
many Interpreter Sessions were successfully created and torn down, and the
lifecycle trace. -/
structure ProcessOutcome where
  exitStatus : Nat
  stderr : List String
  entryInvoked : Nat
  bootstrapRan : Bool
  newCalls : Nat
  sessionsCreated : Nat
  teardowns : Nat
  trace : List HostState
  deriving DecidableEq

/-- Modelled from the spec: truncation of an explicit integer status to the
native exit-status width of the host (eight bits on the modelled host). -/
def truncStatus (n : Int) : Nat := (n % 256).toNat

/-- Modelled from the spec: the distinguished non-zero status for a failure
at interpreter level (unhandled failure out of the bootstrap unit). -/
def interpreterFailureCode : Nat := 1

/-- Modelled from the spec: the distinguished non-zero status for a startup
failure (the embedded runtime cannot be constructed); per section 7 of the
spec it is distinguishable from the interpreter failure only by diagnostic
text, not by exit-status code. -/
def startupFailureCode : Nat := 1

/-- Modelled from the spec: the run operation of the interpreter host of
pyembed, whose code is not under src/. Exactly one construction call is
made; on startup failure no bootstrap code runs and the process terminates
with the distinguished startup-failure status after writing a diagnostic to
standard error; on success the bootstrap unit runs once, the session is torn
down once, and the Bootstrap Result is mapped to the exit status per the
table in section 6 of the spec. -/
def hostRun (init : InitOutcome) (ep : EPOutcome) : ProcessOutcome :=
  match init with
  | .fail msg =>
    { exitStatus := startupFailureCode
      stderr := [ "error instantiating embedded Python interpreter: " ++ msg ]
      entryInvoked := 0
      bootstrapRan := false
      newCalls := 1
      sessionsCreated := 0
      teardowns := 0
      trace := hostTrace (.fail msg) }
  | .ok =>
    { exitStatus :=
        match runBootstrap ep with
        | .status n => truncStatus n
        | .noStatus => 0
        | .objExit _ => interpreterFailureCode
        | .failure _ => interpreterFailureCode
      stderr :=
        match runBootstrap ep with
        | .objExit t => [ t ]
        | .failure msg => [ "error running Python interpreter: " ++ msg ]
        | _ => []
      entryInvoked := 1
      bootstrapRan := true
      newCalls := 1
      sessionsCreated := 1
      teardowns := 1
      trace := hostTrace .ok }

/-- The process entry point of src/pyoxidizer/src/main.rs: its body reads no
command-line arguments and no environment variables; it only constructs the
interpreter and runs the bootstrap unit. -/
def launcherMain (args : List String) (env : List (String × String))
    (init : InitOutcome) (ep : EPOutcome) : ProcessOutcome :=
  hostRun init ep

/-- C1: for every run in which the zero-argument entry point of the target
module returns an integer N within the valid exit-status range of the host,
the host process exit status equals N. -/
theorem exit_status_in_range (n : Int) (h0 : 0 ≤ n) (h1 : n < 256) :
    (hostRun .ok (.ret (.int n))).exitStatus = n.toNat := by
  show truncStatus n = n.toNat
  unfold truncStatus
  rw [Int.emod_eq_of_lt h0 h1]

/-- Witness for C1 at N = 2 (Scenario B of the spec). -/
theorem exit_status_in_range_witness :
    (0 : Int) ≤ 2 ∧ (2 : Int) < 256 ∧
      (hostRun .ok (.ret (.int 2))).exitStatus = (2 : Int).toNat :=
  ⟨ by decide, by decide, exit_status_in_range 2 (by decide) (by decide) ⟩

/-- C2: a run in which the entry point completes successfully and returns no
explicit status (an absent value) gives host exit status 0 (Scenario A). -/
theorem exit_status_no_value :
    (hostRun .ok (.ret .none)).exitStatus = 0 := rfl

/-- C3: an unhandled failure raised by the imported module during bootstrap
execution terminates the host with the distinguished non-zero failure
status, and a diagnostic including the failure message is written to
standard error. -/
theorem unhandled_failure_outcome (msg : String) :
    (hostRun .ok (.raise msg)).exitStatus = interpreterFailureCode ∧
    interpreterFailureCode ≠ 0 ∧
    (∃ line, line ∈ (hostRun .ok (.raise msg)).stderr ∧
      ∃ pre post, line = pre ++ msg ++ post) := by
  refine ⟨ rfl, by decide, ?_ ⟩
  refine ⟨ "error running Python interpreter: " ++ msg, ?_, ?_ ⟩
  · simp [hostRun, runBootstrap]
  · exact ⟨ "error running Python interpreter: ", "", by
      rw [String.append_empty] ⟩

/-- C4: when the embedded runtime fails to initialize, the bootstrap unit
never runs and the entry point is never invoked; the host terminates with
the distinguished non-zero startup-failure status and a diagnostic appears
on standard error. -/
theorem init_failure_skips_bootstrap (msg : String) (ep : EPOutcome) :
    (hostRun (.fail msg) ep).bootstrapRan = false ∧
    (hostRun (.fail msg) ep).entryInvoked = 0 ∧
    (hostRun (.fail msg) ep).exitStatus = startupFailureCode ∧
    startupFailureCode ≠ 0 ∧
    (hostRun (.fail msg) ep).stderr ≠ [] := by
  exact ⟨ rfl, rfl, rfl, by decide, by simp [hostRun] ⟩

/-- C5: in every run, at most one Interpreter Session exists; the
construction call happens exactly once at process start, a session is
successfully created at most once (exactly when construction succeeds), and
it is torn down exactly as many times as it was created: once after
successful construction on every path, never twice, never zero times. -/
theorem interpreter_session_lifecycle (init : InitOutcome) (ep : EPOutcome) :
    (hostRun init ep).newCalls = 1 ∧
    (hostRun init ep).sessionsCreated ≤ 1 ∧
    ((hostRun init ep).sessionsCreated = 1 ↔ init = .ok) ∧
    (hostRun init ep).teardowns = (hostRun init ep).sessionsCreated := by
  cases init <;> simp [hostRun]

/-- C6: the run operation never returns control to its caller — every run,
for every Bootstrap Result and also on a construction failure, ends in the
Terminated lifecycle state with a well-defined exit status. -/
theorem run_always_terminates (init : InitOutcome) (ep : EPOutcome) :
    (hostRun init ep).trace.getLast? = some HostState.terminated := by
  cases init <;> rfl

/-- C7: the bootstrap unit is the fixed, statically known script that
imports the target module by the hardcoded name clipfix.main and invokes its
entry-point function main with no arguments, feeding the return value into
the termination primitive of the embedded interpreter. -/
theorem bootstrap_unit_shape :
    bootstrapUnit =
      "\nimport sys\n" ++ "from " ++ targetModule ++ " import " ++ entryName
        ++ "\n" ++ "sys.exit(" ++ entryName ++ "())" ++ "\n" ∧
    targetModule = "clipfix.main" ∧
    entryName = "main" ∧
    (∀ v, runBootstrap (.ret v) = sysExit v) :=
  ⟨ rfl, rfl, rfl, fun _ => rfl ⟩

/-- C8: an explicit integer status N yields host exit status N truncated to
the native exit-status width, and two values of N that coincide after this
truncation yield equal host exit statuses. -/
theorem exit_status_truncation (m n : Int) (h : truncStatus m = truncStatus n) :
    (hostRun .ok (.ret (.int m))).exitStatus = truncStatus m ∧
    (hostRun .ok (.ret (.int m))).exitStatus
      = (hostRun .ok (.ret (.int n))).exitStatus := by
  refine ⟨ rfl, ?_ ⟩
  show truncStatus m = truncStatus n
  exact h

/-- Witness for C8 at M = 258 and N = 2, which coincide after truncation. -/
theorem exit_status_truncation_witness :
    truncStatus 258 = truncStatus 2 ∧
    (hostRun .ok (.ret (.int 258))).exitStatus = truncStatus 258 ∧
    (hostRun .ok (.ret (.int 258))).exitStatus
      = (hostRun .ok (.ret (.int 2))).exitStatus :=
  ⟨ by decide, exit_status_truncation 258 2 (by decide) ⟩

/-- C9: the launcher core interprets no command-line arguments, flags, or
environment variables — two invocations that differ only in those have
identical launcher behavior. -/
theorem launcher_ignores_args_env (a b : List String)
    (e f : List (String × String)) (init : InitOutcome) (ep : EPOutcome) :
    launcherMain a e init ep = launcherMain b f init ep := rfl

/-- C10: a return value of the entry point that is neither absent nor an
integer is passed unchanged to the termination primitive, and per the
convention of the embedded language the process exits non-zero with the
textual form of the value on standard error. -/
theorem non_integer_exit_value (t : String) :
    runBootstrap (.ret (.obj t)) = sysExit (.obj t) ∧
    (hostRun .ok (.ret (.obj t))).exitStatus ≠ 0 ∧
    t ∈ (hostRun .ok (.ret (.obj t))).stderr := by
  refine ⟨ rfl, Nat.one_ne_zero, ?_ ⟩
  simp [hostRun, runBootstrap, sysExit]
